import Mathlib

/-!
Verification of the research-rag-assistant repository.

Shallow embedding of the repository code:
  - `src/src/config.py`            : `Config`, `validate`, `makedirs`
  - `src/src/vector_store.py`      : `get_collection_name`, `get_persist_directory`,
    `create_vector_store`, `load_vector_store`, `add_documents`,
    `delete_vector_store`, `topic_exists`, `get_retriever`
  - `src/src/document_processor.py`: `save_uploaded_file`, `split_documents`
  - `src/src/query_engine.py`      : `format_sources`, `query`

The external services (Chroma vector database on disk, the Google embedding
model, the Gemini chat model) are modelled as explicit state and parameters:
the on-disk state is a finite association list from persist-directory path to
stored collection, the embedding capability is a function parameter, and the
outcome of one generation call is an `Except` parameter.
-/

/-- A langchain `Document`: page content plus the metadata fields this
repository reads and writes (`source`, `page`, `chunk_id`). -/
structure Document where
  page_content : String
  source : Option String
  page : Option Nat
  chunk_id : Option Nat
deriving Repr, DecidableEq

/-- An embedding vector, produced by the external embedding capability.
Its numeric content is opaque to the repository code. -/
abbrev Embedding := List Int

/-- `Config` from `src/src/config.py`: environment-supplied settings with the
default values from the source. The credential is an `Option` because
`os.getenv` returns `None` when the variable is unset. -/
structure Config where
  GOOGLE_API_KEY : Option String
  VECTOR_DB_PATH : String := "./data/vector_db"
  UPLOADS_PATH : String := "./data/uploads"
  EMBEDDING_MODEL : String := "models/embedding-001"
  LLM_MODEL : String := "gemini-2.5-flash"
  CHUNK_SIZE : Nat := 1000
  CHUNK_OVERLAP : Nat := 200
  TOP_K_RESULTS : Nat := 5
deriving Repr, DecidableEq

/-- `os.path.join` for the relative paths this repository builds. -/
def pathJoin (a b : String) : String := a ++ "/" ++ b

/-- A filesystem abstraction for `os.makedirs` / `os.path.exists` on plain
directories: the list of directories that exist. -/
abbrev FileSys := List String

/-- `os.makedirs(p, exist_ok=True)`: ensure directory `p` exists. -/
def makedirs (p : String) (fs : FileSys) : FileSys :=
  if p ∈ fs then fs else p :: fs

/-- `Config.validate` from `src/src/config.py`: raises `ValueError` when the
credential is falsy (`None` or the empty string), otherwise creates the two
storage roots. The raised error is modelled as `Except.error`. -/
def validate (cfg : Config) (fs : FileSys) : Except String FileSys :=
  if cfg.GOOGLE_API_KEY.getD "" = "" then
    Except.error "GOOGLE_API_KEY not found. Please set it in .env file"
  else
    Except.ok (makedirs cfg.UPLOADS_PATH (makedirs cfg.VECTOR_DB_PATH fs))

/-- Python `str.replace(old, new)` for a one-character pattern: replace every
occurrence of the character `old` by `new`. -/
def pyReplaceChar (old new : Char) (s : List Char) : List Char :=
  s.map (fun c => if c = old then new else c)

/-- Python `str.lower()`, character-wise. -/
def pyLower (s : List Char) : List Char :=
  s.map Char.toLower

/-- `VectorStoreManager._get_collection_name`:
`topic_id.replace(" ", "_").replace("-", "_").lower()`. -/
def get_collection_name (topic_id : String) : String :=
  String.mk (pyLower (pyReplaceChar '-' '_' (pyReplaceChar ' ' '_' topic_id.data)))

/-- `VectorStoreManager._get_persist_directory`:
`os.path.join(Config.VECTOR_DB_PATH, self._get_collection_name(topic_id))`. -/
def get_persist_directory (cfg : Config) (topic_id : String) : String :=
  pathJoin cfg.VECTOR_DB_PATH (get_collection_name topic_id)

/-- One persisted Chroma collection: the stored (document, embedding) entries,
plus a flag modelling whether the on-disk data loads without the `Chroma`
constructor raising (`loadOk = false` models a corrupted store whose load
attempt raises and is caught by `load_vector_store`). -/
structure Collection where
  entries : List (Document × Embedding)
  loadOk : Bool
deriving Repr, DecidableEq

/-- The vector-database directory tree: an association list from
persist-directory path to the collection stored there. -/
abbrev VSState := List (String × Collection)

/-- Lookup of the collection persisted at directory `dir`. -/
def lookupColl : VSState → String → Option Collection
  | [], _ => none
  | (k, c) :: rest, dir => if k = dir then some c else lookupColl rest dir

/-- `shutil.rmtree` of directory `dir` (no-op when absent). -/
def eraseColl : VSState → String → VSState
  | [], _ => []
  | (k, c) :: rest, dir =>
    if k = dir then eraseColl rest dir else (k, c) :: eraseColl rest dir

/-- Persist a collection at directory `dir`, replacing any previous data. -/
def setColl (st : VSState) (dir : String) (c : Collection) : VSState :=
  (dir, c) :: eraseColl st dir

/-- `VectorStoreManager.topic_exists`: `os.path.exists(persist_directory)`. -/
def topic_exists (cfg : Config) (st : VSState) (topic_id : String) : Bool :=
  (lookupColl st (get_persist_directory cfg topic_id)).isSome

/-- `VectorStoreManager.load_vector_store`: `None` when the persist directory
does not exist; otherwise tries to open the store and returns `None` as well
when the `Chroma` constructor raises (the exception is caught). -/
def load_vector_store (cfg : Config) (st : VSState) (topic_id : String) :
    Option Collection :=
  match lookupColl st (get_persist_directory cfg topic_id) with
  | none => none
  | some c => if c.loadOk then some c else none

/-- `VectorStoreManager.create_vector_store`: `Chroma.from_documents` embeds
every chunk via the external embedding capability `embed` and persists the
(text, embedding, metadata) entries at the topic persist directory. -/
def create_vector_store (cfg : Config) (embed : String → Embedding)
    (st : VSState) (documents : List Document) (topic_id : String) : VSState :=
  setColl st (get_persist_directory cfg topic_id)
    ⟨documents.map (fun d => (d, embed d.page_content)), true⟩

/-- `VectorStoreManager.add_documents`: load the existing store; if none
loads, create a new store; otherwise append the new entries to it. -/
def add_documents (cfg : Config) (embed : String → Embedding)
    (st : VSState) (documents : List Document) (topic_id : String) : VSState :=
  match load_vector_store cfg st topic_id with
  | none => create_vector_store cfg embed st documents topic_id
  | some c =>
    setColl st (get_persist_directory cfg topic_id)
      ⟨c.entries ++ documents.map (fun d => (d, embed d.page_content)), c.loadOk⟩

/-- `VectorStoreManager.delete_vector_store`: `shutil.rmtree` of the persist
directory when it exists, otherwise nothing. -/
def delete_vector_store (cfg : Config) (st : VSState) (topic_id : String) :
    VSState :=
  eraseColl st (get_persist_directory cfg topic_id)

/-- `VectorStoreManager.get_retriever`: `None` when no store loads, otherwise
a retriever over the loaded store fetching `k or Config.TOP_K_RESULTS`
chunks. -/
def get_retriever (cfg : Config) (st : VSState) (topic_id : String)
    (k : Option Nat) : Option (Collection × Nat) :=
  (load_vector_store cfg st topic_id).map (fun c => (c, k.getD cfg.TOP_K_RESULTS))

/-- `DocumentProcessor.save_uploaded_file`: create the topic folder
`os.path.join(Config.UPLOADS_PATH, topic_id)` (note: the raw topic string,
not the normalized collection name) and write the file into it. Returns the
updated filesystem and the saved path. -/
def save_uploaded_file (cfg : Config) (fs : FileSys)
    (filename topic_id : String) : FileSys × String :=
  let topic_folder := pathJoin cfg.UPLOADS_PATH topic_id
  (makedirs topic_folder fs, pathJoin topic_folder filename)

/-- Modelled from the spec: the text splitter itself
(`RecursiveCharacterTextSplitter`) is an external langchain capability whose
code is not in this repository; `DocumentProcessor` only configures it with
`chunk_size` and `chunk_overlap` and invokes it. Per the chunking contract in
the spec, the text is cut into chunks of at most `size` characters and each
chunk after the first starts `size - overlap` characters after its
predecessor, so that adjacent chunks share exactly `overlap` characters;
the boundary-preference heuristics (paragraph, line, space, character) are
abstracted away, as the spec states only the size and overlap contract.
`fuel` bounds the recursion; `fuel = text.length` always suffices. -/
def chunkGo (size overlap : Nat) : Nat → List Char → List (List Char)
  | 0, text => [text]
  | fuel + 1, text =>
    if text.length ≤ size ∨ size ≤ overlap then [text]
    else text.take size :: chunkGo size overlap fuel (text.drop (size - overlap))

/-- Modelled from the spec: chunking one text with configured size and
overlap (see `chunkGo`). -/
def chunkText (size overlap : Nat) (text : List Char) : List (List Char) :=
  chunkGo size overlap text.length text

/-- The `for i, chunk in enumerate(chunks): chunk.metadata["chunk_id"] = i`
loop of `DocumentProcessor.split_documents`. -/
def assign_chunk_ids (i : Nat) : List Document → List Document
  | [] => []
  | d :: ds => { d with chunk_id := some i } :: assign_chunk_ids (i + 1) ds

/-- `DocumentProcessor.split_documents`: split every document into chunks
(each chunk keeping its document metadata) and assign sequential chunk ids.
The splitting itself is the spec-modelled `chunkText`. -/
def split_documents (cfg : Config) (documents : List Document) : List Document :=
  assign_chunk_ids 0
    (documents.flatMap (fun d =>
      (chunkText cfg.CHUNK_SIZE cfg.CHUNK_OVERLAP d.page_content.data).map
        (fun cs => { d with page_content := String.mk cs })))

/-- One formatted citation record built by `RAGQueryEngine._format_sources`. -/
structure SourceInfo where
  number : Nat
  filename : String
  page : Option Nat
  content : String
deriving Repr, DecidableEq

/-- The `enumerate(source_documents, 1)` loop of
`RAGQueryEngine._format_sources`: `i` is the next 1-based sequence number. -/
def format_sources_from (i : Nat) : List Document → List SourceInfo
  | [] => []
  | d :: ds =>
    { number := i
      filename := d.source.getD "Unknown"
      page := d.page
      content := String.mk (d.page_content.data.take 300) ++ "..." } ::
    format_sources_from (i + 1) ds

/-- `RAGQueryEngine._format_sources`: citation records numbered from 1. -/
def format_sources (source_documents : List Document) : List SourceInfo :=
  format_sources_from 1 source_documents

/-- The result dictionary returned by `RAGQueryEngine.query`. -/
structure QueryResult where
  answer : Option String
  sources : List SourceInfo
  error : Option String
deriving Repr, DecidableEq

/-- `RAGQueryEngine.query`. The whole body runs inside `try/except`, so the
function is total: every fault becomes a structured result. The one external
call that can raise inside the `try` is the chain execution
`qa_chain({"query": question})`; its outcome (generated answer text and
source documents, or a raised exception message) is the `chain` parameter. -/
def query (cfg : Config) (st : VSState)
    (chain : Except String (String × List Document))
    (_question topic_id : String) : QueryResult :=
  match get_retriever cfg st topic_id none with
  | none =>
    { answer := none
      sources := []
      error := some ("No papers found for topic \x27" ++ topic_id ++
        "\x27. Please upload papers first.") }
  | some _ =>
    match chain with
    | Except.error e =>
      { answer := none
        sources := []
        error := some ("Error processing query: " ++ e) }
    | Except.ok (answer, source_documents) =>
      { answer := some answer
        sources := format_sources source_documents
        error := none }

/-- Concrete configuration used to exercise the theorems. -/
def cfgW : Config := { GOOGLE_API_KEY := some "key" }

/-- Concrete document used to exercise the theorems. -/
def docW : Document :=
  { page_content := "The sky is blue."
    source := some "paper.pdf"
    page := some 0
    chunk_id := none }

/-- Concrete embedding capability used to exercise the theorems. -/
def embedW (s : String) : Embedding := [Int.ofNat s.length]

/-- Concrete loadable vector-store state with one collection. -/
def stW : VSState :=
  [(get_persist_directory cfgW "colors", { entries := [(docW, [16])], loadOk := true })]

/-- Concrete vector-store state whose one persisted collection fails to
load. -/
def stBad : VSState :=
  [(get_persist_directory cfgW "colors", { entries := [], loadOk := false })]

lemma lookupColl_eraseColl_self (st : VSState) (dir : String) :
    lookupColl (eraseColl st dir) dir = none := by
  induction st with
  | nil => rfl
  | cons p rest ih =>
    obtain ⟨k, c⟩ := p
    by_cases hk : k = dir
    · simpa [eraseColl, hk] using ih
    · simp [eraseColl, lookupColl, hk, ih]

lemma lookupColl_eraseColl_ne (st : VSState) (dir d : String) (h : d ≠ dir) :
    lookupColl (eraseColl st dir) d = lookupColl st d := by
  induction st with
  | nil => rfl
  | cons p rest ih =>
    obtain ⟨k, c⟩ := p
    by_cases hk : k = dir
    · have hdd : ¬ dir = d := fun hc => h hc.symm
      simp [eraseColl, lookupColl, hk, hdd, ih]
    · simp [eraseColl, lookupColl, hk, ih]

lemma eraseColl_idem (st : VSState) (dir : String) :
    eraseColl (eraseColl st dir) dir = eraseColl st dir := by
  induction st with
  | nil => rfl
  | cons p rest ih =>
    obtain ⟨k, c⟩ := p
    by_cases hk : k = dir
    · simp [eraseColl, hk, ih]
    · simp [eraseColl, hk, ih]

lemma eraseColl_of_lookup_none (st : VSState) (dir : String)
    (h : lookupColl st dir = none) : eraseColl st dir = st := by
  induction st with
  | nil => rfl
  | cons p rest ih =>
    obtain ⟨k, c⟩ := p
    by_cases hk : k = dir
    · simp [lookupColl, hk] at h
    · simp [lookupColl, hk] at h
      simp [eraseColl, hk, ih h]

lemma lookupColl_setColl_self (st : VSState) (dir : String) (c : Collection) :
    lookupColl (setColl st dir c) dir = some c := by
  simp [setColl, lookupColl]

lemma lookupColl_setColl_ne (st : VSState) (dir d : String) (c : Collection)
    (h : d ≠ dir) : lookupColl (setColl st dir c) d = lookupColl st d := by
  have hdd : dir ≠ d := fun hc => h hc.symm
  simp [setColl, lookupColl, hdd, lookupColl_eraseColl_ne st dir d h]

/-- Claim C1: querying a topic with no existing vector index returns the
structured result with the answer absent, an empty sources list, and the
"No papers found" error message; `query` is a total function (the `try` and
`except` in the source turn every fault into a structured result), so no raw
fault reaches the caller. -/
theorem query_no_index_spec (cfg : Config) (st : VSState)
    (chain : Except String (String × List Document)) (question topic_id : String)
    (h : topic_exists cfg st topic_id = false) :
    query cfg st chain question topic_id =
      { answer := none
        sources := []
        error := some ("No papers found for topic \x27" ++ topic_id ++
          "\x27. Please upload papers first.") } := by
  have hl : lookupColl st (get_persist_directory cfg topic_id) = none := by
    cases hl : lookupColl st (get_persist_directory cfg topic_id) with
    | none => rfl
    | some c => rw [topic_exists, hl] at h; simp at h
  simp [query, get_retriever, load_vector_store, hl]

/-- Witness for C1 at the empty store and topic "general". -/
theorem query_no_index_witness :
    topic_exists cfgW [] "general" = false ∧
    query cfgW [] (Except.ok ("a", [])) "q" "general" =
      { answer := none
        sources := []
        error := some "No papers found for topic \x27general\x27. Please upload papers first." } :=
  ⟨by decide, query_no_index_spec cfgW [] (Except.ok ("a", [])) "q" "general" (by decide)⟩

/-- Claim C2: when the chain execution (the external generation call) raises,
`query` returns the structured error result with a human-readable message and
an empty sources list, the answer withheld. -/
theorem query_generation_failure_spec (cfg : Config) (st : VSState)
    (question topic_id e : String) (c : Collection)
    (h : load_vector_store cfg st topic_id = some c) :
    query cfg st (Except.error e) question topic_id =
      { answer := none
        sources := []
        error := some ("Error processing query: " ++ e) } := by
  simp [query, get_retriever, h]

/-- Witness for C2 at a one-collection store and a failing generation call. -/
theorem query_generation_failure_witness :
    load_vector_store cfgW stW "colors" =
      some { entries := [(docW, [16])], loadOk := true } ∧
    query cfgW stW (Except.error "boom") "q" "colors" =
      { answer := none
        sources := []
        error := some "Error processing query: boom" } :=
  ⟨by decide,
   query_generation_failure_spec cfgW stW "q" "colors" "boom"
     { entries := [(docW, [16])], loadOk := true } (by decide)⟩

/-- Claim C5: after `delete_vector_store`, `topic_exists` is false; deleting
twice equals deleting once; and deleting a topic with no persisted data is a
no-op (the function is total, so no error is raised). -/
theorem delete_idempotent_spec (cfg : Config) (st : VSState) (topic_id : String) :
    topic_exists cfg (delete_vector_store cfg st topic_id) topic_id = false ∧
    delete_vector_store cfg (delete_vector_store cfg st topic_id) topic_id =
      delete_vector_store cfg st topic_id ∧
    (topic_exists cfg st topic_id = false → delete_vector_store cfg st topic_id = st) := by
  refine ⟨?_, ?_, ?_⟩
  · simp [topic_exists, delete_vector_store, lookupColl_eraseColl_self]
  · exact eraseColl_idem st (get_persist_directory cfg topic_id)
  · intro h
    refine eraseColl_of_lookup_none st (get_persist_directory cfg topic_id) ?_
    cases hl : lookupColl st (get_persist_directory cfg topic_id) with
    | none => rfl
    | some c => rw [topic_exists, hl] at h; simp at h

/-- Witness for C5 at the empty store: the second delete hypothesis holds and
the delete is a no-op. -/
theorem delete_idempotent_witness :
    topic_exists cfgW [] "colors" = false ∧
    delete_vector_store cfgW [] "colors" = [] :=
  ⟨by decide, (delete_idempotent_spec cfgW [] "colors").2.2 (by decide)⟩

/-- Claim C10: when the persist directory exists but the persisted collection
fails to load, `topic_exists` still reports true while `load_vector_store`
returns `none` (the exception is caught), so `query` returns the same
structured "No papers found" result as for a topic that was never created. -/
theorem load_failure_spec (cfg : Config) (st : VSState)
    (chain : Except String (String × List Document)) (question topic_id : String)
    (c : Collection)
    (h1 : lookupColl st (get_persist_directory cfg topic_id) = some c)
    (h2 : c.loadOk = false) :
    topic_exists cfg st topic_id = true ∧
    load_vector_store cfg st topic_id = none ∧
    query cfg st chain question topic_id =
      { answer := none
        sources := []
        error := some ("No papers found for topic \x27" ++ topic_id ++
          "\x27. Please upload papers first.") } := by
  have hload : load_vector_store cfg st topic_id = none := by
    simp [load_vector_store, h1, h2]
  exact ⟨by simp [topic_exists, h1],
    hload,
    by simp [query, get_retriever, hload]⟩

/-- Witness for C10 at a store whose one collection is unloadable. -/
theorem load_failure_witness :
    lookupColl stBad (get_persist_directory cfgW "colors") =
      some { entries := [], loadOk := false } ∧
    topic_exists cfgW stBad "colors" = true ∧
    load_vector_store cfgW stBad "colors" = none ∧
    query cfgW stBad (Except.ok ("a", [])) "q" "colors" =
      { answer := none
        sources := []
        error := some "No papers found for topic \x27colors\x27. Please upload papers first." } :=
  ⟨by decide,
   load_failure_spec cfgW stBad (Except.ok ("a", [])) "q" "colors"
     { entries := [], loadOk := false } (by decide) (by decide)⟩

/-- Claim C4: `add_documents` creates the topic collection on a first write
(storing one (document, embedding) entry per chunk, computed by the external
embedding capability), and otherwise appends the new entries after the
existing ones; in both cases every other persisted collection is left
untouched. -/
theorem add_documents_append_spec (cfg : Config) (embed : String → Embedding)
    (st : VSState) (documents : List Document) (topic_id : String)
    (_hne : documents ≠ []) :
    (topic_exists cfg st topic_id = false →
      lookupColl (add_documents cfg embed st documents topic_id)
          (get_persist_directory cfg topic_id) =
        some { entries := documents.map (fun d => (d, embed d.page_content))
               loadOk := true } ∧
      ∀ dir, dir ≠ get_persist_directory cfg topic_id →
        lookupColl (add_documents cfg embed st documents topic_id) dir =
          lookupColl st dir) ∧
    (∀ c, load_vector_store cfg st topic_id = some c →
      lookupColl (add_documents cfg embed st documents topic_id)
          (get_persist_directory cfg topic_id) =
        some { entries := c.entries ++ documents.map (fun d => (d, embed d.page_content))
               loadOk := c.loadOk } ∧
      ∀ dir, dir ≠ get_persist_directory cfg topic_id →
        lookupColl (add_documents cfg embed st documents topic_id) dir =
          lookupColl st dir) := by
  constructor
  · intro h
    have hl : lookupColl st (get_persist_directory cfg topic_id) = none := by
      cases hl : lookupColl st (get_persist_directory cfg topic_id) with
      | none => rfl
      | some c => rw [topic_exists, hl] at h; simp at h
    have hload : load_vector_store cfg st topic_id = none := by
      simp [load_vector_store, hl]
    constructor
    · simp [add_documents, hload, create_vector_store, lookupColl_setColl_self]
    · intro dir hdir
      simp [add_documents, hload, create_vector_store,
        lookupColl_setColl_ne st (get_persist_directory cfg topic_id) dir _ hdir]
  · intro c hc
    constructor
    · simp [add_documents, hc, lookupColl_setColl_self]
    · intro dir hdir
      simp [add_documents, hc,
        lookupColl_setColl_ne st (get_persist_directory cfg topic_id) dir _ hdir]

/-- Witness for C4: a first write into the empty store creates the collection
with exactly the embedded entries. -/
theorem add_documents_append_witness :
    topic_exists cfgW [] "colors" = false ∧ ([docW] : List Document) ≠ [] ∧
    lookupColl (add_documents cfgW embedW [] [docW] "colors")
        (get_persist_directory cfgW "colors") =
      some { entries := [(docW, [16])], loadOk := true } :=
  ⟨by decide, by decide,
   ((add_documents_append_spec cfgW embedW [] [docW] "colors" (by decide)).1
     (by decide)).1⟩

/-- Counterexample to C7 as stated: for the topic "My-Topic", the uploads
folder created by `save_uploaded_file` keeps the raw topic string "My-Topic",
while the normalized name would be "my_topic"; only the vector-database
collection name is normalized. -/
theorem uploads_folder_counterexample :
    (save_uploaded_file cfgW [] "paper.pdf" "My-Topic").2 =
      "./data/uploads/My-Topic/paper.pdf" ∧
    get_collection_name "My-Topic" = "my_topic" ∧
    (save_uploaded_file cfgW [] "paper.pdf" "My-Topic").2 ≠
      pathJoin (pathJoin cfgW.UPLOADS_PATH (get_collection_name "My-Topic")) "paper.pdf" :=
  ⟨by decide, by decide, by decide⟩

/-- Claim C7 (amended): the vector-database persist directory is named by the
topic normalized by lower-casing and replacing spaces and hyphens with
underscores, while the per-topic uploads folder is named by the raw,
unnormalized topic string. -/
theorem topic_naming_amended_spec (cfg : Config) (fs : FileSys)
    (filename topic_id : String) :
    get_persist_directory cfg topic_id =
      pathJoin cfg.VECTOR_DB_PATH
        (String.mk (pyLower (pyReplaceChar '-' '_' (pyReplaceChar ' ' '_' topic_id.data)))) ∧
    (save_uploaded_file cfg fs filename topic_id).1 =
      makedirs (pathJoin cfg.UPLOADS_PATH topic_id) fs ∧
    (save_uploaded_file cfg fs filename topic_id).2 =
      pathJoin (pathJoin cfg.UPLOADS_PATH topic_id) filename :=
  ⟨rfl, rfl, rfl⟩

lemma mem_makedirs_self (p : String) (fs : FileSys) : p ∈ makedirs p fs := by
  unfold makedirs
  split
  · assumption
  · exact List.mem_cons_self p fs

lemma mem_makedirs_of_mem (q p : String) (fs : FileSys) (h : q ∈ fs) :
    q ∈ makedirs p fs := by
  unfold makedirs
  split
  · exact h
  · exact List.mem_cons_of_mem p h

/-- Claim C8: `validate` fails exactly when the credential is falsy (unset or
the empty string, which is how Python `not` reads an absent credential), and
on success both storage roots exist in the resulting filesystem, created if
missing. -/
theorem validate_spec (cfg : Config) (fs : FileSys) :
    ((∃ e, validate cfg fs = Except.error e) ↔
      (cfg.GOOGLE_API_KEY = none ∨ cfg.GOOGLE_API_KEY = some "")) ∧
    ∀ fsr, validate cfg fs = Except.ok fsr →
      cfg.VECTOR_DB_PATH ∈ fsr ∧ cfg.UPLOADS_PATH ∈ fsr := by
  by_cases hk : cfg.GOOGLE_API_KEY.getD "" = ""
  · refine ⟨⟨fun _ => ?_, fun _ => ?_⟩, fun fsr hfsr => ?_⟩
    · cases hkey : cfg.GOOGLE_API_KEY with
      | none => exact Or.inl rfl
      | some s =>
        rw [hkey] at hk
        simp only [Option.getD_some] at hk
        exact Or.inr (by rw [hk])
    · exact ⟨"GOOGLE_API_KEY not found. Please set it in .env file",
        by simp [validate, hk]⟩
    · simp [validate, hk] at hfsr
  · refine ⟨⟨fun he => ?_, fun hkey => ?_⟩, fun fsr hfsr => ?_⟩
    · obtain ⟨e, he⟩ := he
      simp [validate, hk] at he
    · cases hkey with
      | inl hnone => rw [hnone] at hk; simp at hk
      | inr hempty => rw [hempty] at hk; simp at hk
    · simp only [validate] at hfsr
      rw [if_neg hk] at hfsr
      simp only [Except.ok.injEq] at hfsr
      subst hfsr
      exact ⟨mem_makedirs_of_mem _ _ _ (mem_makedirs_self _ _),
        mem_makedirs_self _ _⟩

/-- Witness for C8: with the credential absent `validate` errors, and with a
credential present the resulting filesystem contains both storage roots. -/
theorem validate_witness :
    (∃ e, validate { GOOGLE_API_KEY := none } [] = Except.error e) ∧
    ("./data/vector_db" ∈ (["./data/uploads", "./data/vector_db"] : FileSys) ∧
     "./data/uploads" ∈ (["./data/uploads", "./data/vector_db"] : FileSys)) :=
  ⟨(validate_spec { GOOGLE_API_KEY := none } []).1.2 (Or.inl rfl),
   (validate_spec cfgW []).2 ["./data/uploads", "./data/vector_db"] rfl⟩

/-- Counterexample to C9 as stated: on a chunk whose text is "abc", the
formatted excerpt is "abc..." (the code appends a literal ellipsis), which is
not the prefix of length min(300, 3) of the chunk text. -/
theorem format_sources_excerpt_counterexample :
    (format_sources
        [{ page_content := "abc", source := some "paper.pdf", page := some 0,
           chunk_id := none }]).map SourceInfo.content = ["abc..."] ∧
    ("abc..." : String) ≠ String.mk ("abc".data.take 300) :=
  ⟨by decide, by decide⟩

lemma format_sources_from_length (n : Nat) (docs : List Document) :
    (format_sources_from n docs).length = docs.length := by
  induction docs generalizing n with
  | nil => rfl
  | cons d ds ih => simp [format_sources_from, ih]

lemma format_sources_from_getElem (n : Nat) (docs : List Document) :
    ∀ i, (format_sources_from n docs)[i]? =
      (docs[i]?).map (fun d =>
        ({ number := n + i
           filename := d.source.getD "Unknown"
           page := d.page
           content := String.mk (d.page_content.data.take 300) ++ "..." } : SourceInfo)) := by
  induction docs generalizing n with
  | nil => intro i; simp [format_sources_from]
  | cons d ds ih =>
    intro i
    cases i with
    | zero => simp [format_sources_from]
    | succ j =>
      simp only [format_sources_from, List.getElem?_cons_succ, ih (n + 1) j]
      have harith : n + 1 + j = n + (j + 1) := by omega
      rw [harith]

/-- Claim C9 (amended): the citation records carry, in order of the retrieved
chunks, a 1-based sequence number, the source filename (metadata `source`,
defaulting to "Unknown"), the page number (metadata `page`), and an excerpt
that is the first min(300, length) characters of the chunk text followed by a
literal "..." suffix. -/
theorem format_sources_amended_spec (source_documents : List Document) :
    (format_sources source_documents).length = source_documents.length ∧
    ∀ i, (format_sources source_documents)[i]? =
      (source_documents[i]?).map (fun d =>
        ({ number := i + 1
           filename := d.source.getD "Unknown"
           page := d.page
           content := String.mk (d.page_content.data.take 300) ++ "..." } : SourceInfo)) := by
  refine ⟨format_sources_from_length 1 source_documents, ?_⟩
  intro i
  rw [format_sources, format_sources_from_getElem 1 source_documents i]
  have harith : 1 + i = i + 1 := by omega
  rw [harith]


lemma chunkGo_ne_nil (S O fuel : Nat) (text : List Char) :
    chunkGo S O fuel text ≠ [] := by
  cases fuel with
  | zero => simp [chunkGo]
  | succ f =>
    unfold chunkGo
    split
    · simp
    · simp

lemma chunkGo_headI_take (S O : Nat) (hO : O ≤ S) (fuel : Nat) (text : List Char) :
    (chunkGo S O fuel text).headI.take O = text.take O := by
  cases fuel with
  | zero => simp [chunkGo]
  | succ f =>
    unfold chunkGo
    split
    · simp
    · simp [List.take_take, Nat.min_eq_left hO]

lemma chunkGo_length_le (S O : Nat) (hO : O < S) :
    ∀ fuel text, text.length ≤ fuel + S →
      ∀ c ∈ chunkGo S O fuel text, c.length ≤ S := by
  intro fuel
  induction fuel with
  | zero =>
    intro text h c hc
    simp [chunkGo] at hc
    subst hc
    simp at h
    exact h
  | succ f ih =>
    intro text h c hc
    unfold chunkGo at hc
    by_cases hcond : text.length ≤ S ∨ S ≤ O
    · rw [if_pos hcond] at hc
      simp at hc
      subst hc
      rcases hcond with h1 | h2
      · exact h1
      · omega
    · rw [if_neg hcond] at hc
      push_neg at hcond
      obtain ⟨h1, h2⟩ := hcond
      rcases List.mem_cons.mp hc with rfl | hmem
      · simp [List.length_take]
      · refine ih (text.drop (S - O)) ?_ c hmem
        simp only [List.length_drop]
        omega

lemma chunkGo_chain (S O : Nat) (hO : O < S) :
    ∀ fuel text,
      List.Chain' (fun a b => a.length = S ∧ a.drop (S - O) = b.take O)
        (chunkGo S O fuel text) := by
  intro fuel
  induction fuel with
  | zero => intro text; simp [chunkGo]
  | succ f ih =>
    intro text
    unfold chunkGo
    by_cases hcond : text.length ≤ S ∨ S ≤ O
    · rw [if_pos hcond]
      simp
    · rw [if_neg hcond]
      push_neg at hcond
      obtain ⟨h1, h2⟩ := hcond
      refine List.chain'_cons'.mpr ⟨?_, ih (text.drop (S - O))⟩
      intro y hy
      have hhead : y = (chunkGo S O f (text.drop (S - O))).headI := by
        cases hg : chunkGo S O f (text.drop (S - O)) with
        | nil => exact absurd hg (chunkGo_ne_nil S O f _)
        | cons z zs =>
          rw [hg] at hy
          simp at hy
          simp [hy, hg]
      constructor
      · simp [List.length_take, Nat.min_eq_left (Nat.le_of_lt h1)]
      · rw [List.drop_take]
        have hsub : S - (S - O) = O := by omega
        rw [hsub, hhead, chunkGo_headI_take S O (Nat.le_of_lt hO) f (text.drop (S - O))]

lemma assign_chunk_ids_map_content (i : Nat) (l : List Document) :
    (assign_chunk_ids i l).map (fun c => c.page_content.data) =
      l.map (fun c => c.page_content.data) := by
  induction l generalizing i with
  | nil => rfl
  | cons d ds ih => simp [assign_chunk_ids, ih]

/-- Claim C3 (with the spec-modelled chunker, see `chunkGo`): splitting one
document with chunk size S and overlap O, O < S, produces exactly the chunk
list of the modelled splitter; every chunk has length at most S; and every
two sequentially adjacent chunks share exactly O characters: each chunk that
has a successor has length exactly S and its last O characters equal the
first O characters of the next chunk (no constraint at document start, and
none for the final chunk, where the source text is exhausted). -/
theorem chunking_size_overlap_spec (cfg : Config) (d : Document)
    (hO : cfg.CHUNK_OVERLAP < cfg.CHUNK_SIZE) :
    ((split_documents cfg [d]).map (fun c => c.page_content.data) =
      chunkText cfg.CHUNK_SIZE cfg.CHUNK_OVERLAP d.page_content.data) ∧
    (∀ c ∈ chunkText cfg.CHUNK_SIZE cfg.CHUNK_OVERLAP d.page_content.data,
      c.length ≤ cfg.CHUNK_SIZE) ∧
    List.Chain' (fun a b => a.length = cfg.CHUNK_SIZE ∧
        a.drop (cfg.CHUNK_SIZE - cfg.CHUNK_OVERLAP) = b.take cfg.CHUNK_OVERLAP)
      (chunkText cfg.CHUNK_SIZE cfg.CHUNK_OVERLAP d.page_content.data) := by
  refine ⟨?_, ?_, ?_⟩
  · rw [split_documents, assign_chunk_ids_map_content]
    simp only [List.flatMap_cons, List.flatMap_nil, List.append_nil, List.map_map]
    exact List.map_id _
  · exact chunkGo_length_le _ _ hO _ _ (Nat.le_add_right _ _)
  · exact chunkGo_chain _ _ hO _ _

/-- Concrete configuration with chunk size 5 and overlap 2. -/
def cfgC : Config := { GOOGLE_API_KEY := none, CHUNK_SIZE := 5, CHUNK_OVERLAP := 2 }

/-- Concrete ten-character document for the chunking witness. -/
def docC : Document :=
  { page_content := "abcdefghij", source := none, page := none, chunk_id := none }

/-- Witness for C3 at size 5, overlap 2, on a ten-character text. -/
theorem chunking_size_overlap_witness :
    cfgC.CHUNK_OVERLAP < cfgC.CHUNK_SIZE ∧
    (((split_documents cfgC [docC]).map (fun c => c.page_content.data) =
        chunkText cfgC.CHUNK_SIZE cfgC.CHUNK_OVERLAP docC.page_content.data) ∧
      (∀ c ∈ chunkText cfgC.CHUNK_SIZE cfgC.CHUNK_OVERLAP docC.page_content.data,
        c.length ≤ cfgC.CHUNK_SIZE) ∧
      List.Chain' (fun a b => a.length = cfgC.CHUNK_SIZE ∧
          a.drop (cfgC.CHUNK_SIZE - cfgC.CHUNK_OVERLAP) = b.take cfgC.CHUNK_OVERLAP)
        (chunkText cfgC.CHUNK_SIZE cfgC.CHUNK_OVERLAP docC.page_content.data)) :=
  ⟨by decide, chunking_size_overlap_spec cfgC docC (by decide)⟩
